import Mathlib

/-!
Shallow embedding of the time-series analytics and charting engine of the
kabu-bunseki dashboard (source: `src/frontend/src/components/charts/StockChart.tsx`
and `formatAmount` in `src/frontend/src/app/(dashboard)/analysis/[code]/page.tsx`).

JavaScript numbers are modelled by `ℚ`.  Division in `ℚ` is total with
`x / 0 = 0`; the JS originals produce `NaN`/`Infinity` at a zero denominator,
so whenever a claim turns on a division-by-zero case the statement is made
about the denominator itself, which the two models agree on.  Nullable fields
are `Option ℚ`.
-/

namespace KabuBunseki

/-- One row of the `stockPrices` prop (interface `StockPrice` in
`StockChart.tsx`): a date label and five nullable numeric fields. -/
structure StockPrice where
  date : String
  open_price : Option ℚ
  high_price : Option ℚ
  low_price : Option ℚ
  close_price : Option ℚ
  volume : Option ℚ
deriving DecidableEq

/-- JavaScript `Array.prototype.slice(start, stop)`: negative indices count
from the end, both indices are clamped to `[0, length]`, and the extracted
window is `[start, stop)`. -/
def jsSlice (l : List ℚ) (start stop : ℤ) : List ℚ :=
  let n : ℤ := l.length
  let s : ℤ := if start < 0 then max (n + start) 0 else min start n
  let e : ℤ := if stop < 0 then max (n + stop) 0 else min stop n
  (l.drop s.toNat).take (e.toNat - s.toNat)

/-- JavaScript `x || y` on numbers (used as `p.close_price || 0` and
`Math.abs(close - open) || 1` in the source): returns `y` when `x` is falsy.
For a `ℚ`-valued `x` the only falsy value is `0` (`NaN` has no counterpart). -/
def jsOr (x y : ℚ) : ℚ := if x = 0 then y else x

/-- `calculateMA` from `StockChart.tsx` lines 51-58 (duplicated verbatim at
lines 262-269): map over the price array by index; emit `null` while
`index < period - 1`, otherwise slice the trailing window
`prices.slice(index - period + 1, index + 1)`, sum it with
`reduce((a, b) => a + b, 0)` and divide by `period`. -/
def calculateMA (prices : List ℚ) (period : ℤ) : List (Option ℚ) :=
  prices.enum.map (fun q =>
    if (q.1 : ℤ) < period - 1 then none
    else some ((jsSlice prices ((q.1 : ℤ) - period + 1) ((q.1 : ℤ) + 1)).foldl (· + ·) 0
      / (period : ℚ)))

/-- `computeMovingAverage` as the spec names it: `calculateMA` applied to the
close prices with null closes substituted by `0`, exactly as the caller does
with `stockPrices.map(p => p.close_price || 0)` (`StockChart.tsx` line 62;
`p.close_price || 0` and `Option.getD 0` agree on `ℚ`). -/
def computeMovingAverage (closes : List (Option ℚ)) (period : ℤ) : List (Option ℚ) :=
  calculateMA (closes.map (fun c => c.getD 0)) period

lemma calculateMA_length (prices : List ℚ) (period : ℤ) :
    (calculateMA prices period).length = prices.length := by
  simp [calculateMA]

lemma calculateMA_getElem? (prices : List ℚ) (period : ℤ) (i : ℕ) :
    (calculateMA prices period)[i]? =
      prices[i]?.map (fun _ =>
        if (i : ℤ) < period - 1 then none
        else some ((jsSlice prices ((i : ℤ) - period + 1) ((i : ℤ) + 1)).foldl (· + ·) 0
          / (period : ℚ))) := by
  simp only [calculateMA, List.getElem?_map, List.getElem?_enum]
  cases prices[i]? <;> rfl

/-- In the taken branch (`period ≥ 1`, `period - 1 ≤ i < prices.length`) the
slice is the trailing window of exactly `period` elements ending at `i`. -/
lemma jsSlice_window (prices : List ℚ) (period : ℤ) (i : ℕ)
    (hp : 0 < period) (hip : period - 1 ≤ (i : ℤ)) (hi : i < prices.length) :
    jsSlice prices ((i : ℤ) - period + 1) ((i : ℤ) + 1) =
      (prices.drop (i + 1 - period.toNat)).take period.toNat := by
  have hn : (prices.length : ℤ) = prices.length := rfl
  simp only [jsSlice]
  have h1 : ¬ ((i : ℤ) - period + 1 < 0) := by omega
  have h2 : ¬ ((i : ℤ) + 1 < 0) := by omega
  rw [if_neg h1, if_neg h2]
  have h3 : min ((i : ℤ) - period + 1) (prices.length : ℤ) = (i : ℤ) - period + 1 := by omega
  have h4 : min ((i : ℤ) + 1) (prices.length : ℤ) = (i : ℤ) + 1 := by omega
  rw [h3, h4]
  have he : (((i : ℤ) + 1).toNat - ((i : ℤ) - period + 1).toNat) = period.toNat := by omega
  have hs : ((i : ℤ) - period + 1).toNat = i + 1 - period.toNat := by omega
  rw [he, hs]

/-- For `period ≤ 0` the slice start is at or past its end, so the window is
empty. -/
lemma jsSlice_empty_of_nonpos (prices : List ℚ) (period : ℤ) (i : ℕ)
    (hp : period ≤ 0) (hi : i < prices.length) :
    jsSlice prices ((i : ℤ) - period + 1) ((i : ℤ) + 1) = [] := by
  simp only [jsSlice]
  have h1 : ¬ ((i : ℤ) - period + 1 < 0) := by omega
  have h2 : ¬ ((i : ℤ) + 1 < 0) := by omega
  rw [if_neg h1, if_neg h2]
  have h4 : min ((i : ℤ) + 1) (prices.length : ℤ) = (i : ℤ) + 1 := by omega
  rw [h4]
  have : (min ((i : ℤ) - period + 1) (prices.length : ℤ)).toNat ≥ ((i : ℤ) + 1).toNat := by
    omega
  have hz : ((i : ℤ) + 1).toNat - (min ((i : ℤ) - period + 1) (prices.length : ℤ)).toNat = 0 := by
    omega
  rw [hz]
  simp

/-- C1: for every closes sequence `S` and every positive period `p`,
`computeMovingAverage S p` has the same length as `S`; element `i` is null
when `i < p - 1` and otherwise is the arithmetic mean (sum over window length,
the window having exactly `p` elements) of the null-as-zero substituted
elements `S[i-p+1..i]`; the empty sequence maps to the empty sequence, and a
period exceeding the length gives an all-null sequence. -/
theorem C1_computeMovingAverage (S : List (Option ℚ)) (p : ℤ) (hp : 0 < p) :
    (computeMovingAverage S p).length = S.length ∧
    (∀ i : ℕ, i < S.length → (i : ℤ) < p - 1 →
      (computeMovingAverage S p)[i]? = some none) ∧
    (∀ i : ℕ, i < S.length → p - 1 ≤ (i : ℤ) →
      (((S.map (fun c => c.getD 0)).drop (i + 1 - p.toNat)).take p.toNat).length = p.toNat ∧
      (computeMovingAverage S p)[i]? =
        some (some ((((S.map (fun c => c.getD 0)).drop (i + 1 - p.toNat)).take p.toNat).foldl
          (· + ·) 0 / (p : ℚ)))) ∧
    (S = [] → computeMovingAverage S p = []) ∧
    ((S.length : ℤ) < p → ∀ o ∈ computeMovingAverage S p, o = none) := by
  have hlen : (S.map (fun c : Option ℚ => c.getD 0)).length = S.length := by simp
  have hresl : (computeMovingAverage S p).length = S.length := by
    simp [computeMovingAverage, calculateMA_length]
  have hnull : ∀ i : ℕ, i < S.length → (i : ℤ) < p - 1 →
      (computeMovingAverage S p)[i]? = some none := by
    intro i hi hip
    rw [computeMovingAverage, calculateMA_getElem?]
    rw [List.getElem?_eq_getElem (by omega : i < (S.map (fun c : Option ℚ => c.getD 0)).length)]
    simp [hip]
  refine ⟨hresl, hnull, ?_, ?_, ?_⟩
  · intro i hi hip
    constructor
    · simp only [List.length_take, List.length_drop, hlen]
      omega
    · rw [computeMovingAverage, calculateMA_getElem?]
      rw [List.getElem?_eq_getElem (by omega : i < (S.map (fun c : Option ℚ => c.getD 0)).length)]
      rw [Option.map_some', if_neg (by omega), jsSlice_window _ p i hp hip (by omega)]
  · intro hS
    subst hS
    rfl
  · intro hlt o ho
    rw [List.mem_iff_getElem?] at ho
    obtain ⟨i, hi⟩ := ho
    obtain ⟨hh, -⟩ := List.getElem?_eq_some.mp hi
    rw [hresl] at hh
    rw [hnull i hh (by omega)] at hi
    exact (Option.some_inj.mp hi).symm

/-- Witness for C1 at `S = [some 2, none, some 10]`, `p = 2`: length is 3,
index 0 is null, and index 2 carries the mean of the zero-substituted window
`[0, 10]`. -/
theorem C1_witness :
    (computeMovingAverage [some 2, none, some 10] 2).length = 3 ∧
    (computeMovingAverage [some 2, none, some 10] 2)[0]? = some none ∧
    (computeMovingAverage [some 2, none, some 10] 2)[2]? =
      some (some (((([some 2, none, (some 10 : Option ℚ)].map (fun c => c.getD 0)).drop
        (2 + 1 - (2 : ℤ).toNat)).take (2 : ℤ).toNat).foldl (· + ·) 0 / ((2 : ℤ) : ℚ))) := by
  have h := C1_computeMovingAverage [some 2, none, some 10] 2 (by decide)
  exact ⟨h.1, h.2.1 0 (by decide) (by decide), (h.2.2.1 2 (by decide) (by decide)).2⟩

unseal Rat.add Rat.mul Rat.inv in
/-- C6 counterexample: the claim predicts an all-null result for `period ≤ 0`,
but `calculateMA` with `period = 0` on `[some 5]` returns `[some 0]`
(the empty-window sum divided by the period; `NaN`, not `null`, in JS),
never `[none]`. -/
theorem C6_counterexample :
    computeMovingAverage [some 5] 0 = [some 0] ∧
    computeMovingAverage [some 5] 0 ≠ [none] := by
  decide

/-- C6 amended: for `period ≤ 0` no error is raised and the result has the
same length as the input, but its elements are non-null: each is the
empty-window sum `0` divided by the period (which is `0` in exact arithmetic;
the JS original yields `NaN` for `period = 0` and `-0` for negative periods,
still not `null`). -/
theorem C6_amended (S : List (Option ℚ)) (p : ℤ) (hp : p ≤ 0) :
    (computeMovingAverage S p).length = S.length ∧
    ∀ i : ℕ, i < S.length → (computeMovingAverage S p)[i]? = some (some 0) := by
  have hlen : (S.map (fun c : Option ℚ => c.getD 0)).length = S.length := by simp
  constructor
  · simp [computeMovingAverage, calculateMA_length]
  · intro i hi
    rw [computeMovingAverage, calculateMA_getElem?]
    rw [List.getElem?_eq_getElem (by omega : i < (S.map (fun c : Option ℚ => c.getD 0)).length)]
    rw [Option.map_some', if_neg (by omega),
      jsSlice_empty_of_nonpos _ p i hp (by omega)]
    simp

/-- Witness for C6 amended at `S = [some 5, none]`, `p = -3`. -/
theorem C6_witness :
    (computeMovingAverage [some 5, none] (-3))[1]? = some (some 0) :=
  (C6_amended [some 5, none] (-3) (by decide)).2 1 (by decide)

/-- JavaScript `Number.prototype.toFixed(0)` on a `ℚ` value: per the
ECMAScript algorithm, a leading `"-"` is emitted for negative input and the
magnitude is rounded to the integer `n` minimizing `|n - |x||`, ties to the
larger `n` (round half away from zero). -/
def toFixed0 (x : ℚ) : String :=
  (if x < 0 then "-" else "") ++ toString (Int.toNat ⌊|x| + 1 / 2⌋)

/-- JavaScript `Number.prototype.toFixed(1)` on a `ℚ` value: sign as in
`toFixed0`, magnitude rounded to one decimal digit (ties away from zero),
printed as integer part, `"."`, and the single fractional digit. -/
def toFixed1 (x : ℚ) : String :=
  (if x < 0 then "-" else "") ++
    toString (Int.toNat ⌊|x| * 10 + 1 / 2⌋ / 10) ++ "." ++
    toString (Int.toNat ⌊|x| * 10 + 1 / 2⌋ % 10)

/-- `formatAmount` from `analysis/[code]/page.tsx` lines 194-201: `null`
maps to `"-"`; otherwise `oku = value / 100000000`, and if `oku >= 10000`
the result is `(oku / 10000).toFixed(1)` with the trillion suffix, else
`oku.toFixed(0)` with the oku suffix. -/
def formatAmount : Option ℚ → String
  | none => "-"
  | some v =>
    if v / 100000000 ≥ 10000 then toFixed1 (v / 100000000 / 10000) ++ "兆円"
    else toFixed0 (v / 100000000) ++ "億円"

unseal Rat.add Rat.mul Rat.inv in
/-- C2: `formatAmount` returns `"-"` on null; on a value whose oku amount
`value / 100000000` is at least `10000` it renders that amount divided by
`10000` to one decimal place with the trillion-unit suffix, otherwise the oku
amount rounded to zero decimals with the oku-unit suffix; the tier switch is
at exactly `10000` oku (`>=`, witnessed by the value `10^12` rendering as
`"1.0兆円"` while `10^12 - 10^8` stays in the oku tier), and
`formatAmount 0 = "0億円"`. -/
theorem C2_formatAmount :
    formatAmount none = "-" ∧
    (∀ v : ℚ, (10000 : ℚ) ≤ v / 100000000 →
      formatAmount (some v) = toFixed1 (v / 100000000 / 10000) ++ "兆円") ∧
    (∀ v : ℚ, v / 100000000 < 10000 →
      formatAmount (some v) = toFixed0 (v / 100000000) ++ "億円") ∧
    formatAmount (some 1000000000000) = "1.0兆円" ∧
    formatAmount (some 999900000000) = "9999億円" ∧
    formatAmount (some 0) = "0億円" := by
  refine ⟨rfl, ?_, ?_, by decide, by decide, by decide⟩
  · intro v hv
    rw [formatAmount, if_pos hv]
  · intro v hv
    rw [formatAmount, if_neg (not_le.mpr hv)]

/-- Witness for C2 instantiating the trillion tier at `2 × 10^15`
(`2 × 10^7` oku). -/
theorem C2_witness :
    formatAmount (some 2000000000000000) =
      toFixed1 ((2000000000000000 : ℚ) / 100000000 / 10000) ++ "兆円" :=
  C2_formatAmount.2.1 2000000000000000 (by norm_num)

unseal Rat.add Rat.mul Rat.inv in
/-- C10: a strictly negative value always takes the oku-unit branch, because
its oku amount is negative and the tier test is `oku >= 10000`; in particular
`-2 × 10^12` minor units (`-20000` oku) renders as `"-20000億円"`, not as a
trillion-unit string. -/
theorem C10_negative :
    (∀ v : ℚ, v < 0 → formatAmount (some v) = toFixed0 (v / 100000000) ++ "億円") ∧
    formatAmount (some (-2000000000000)) = "-20000億円" := by
  constructor
  · intro v hv
    rw [formatAmount, if_neg]
    rw [not_le]
    calc v / 100000000 < 0 := div_neg_of_neg_of_pos hv (by norm_num)
      _ < 10000 := by norm_num
  · decide

/-- Witness for C10 at `v = -1`. -/
theorem C10_witness :
    formatAmount (some (-1)) = toFixed0 ((-1 : ℚ) / 100000000) ++ "億円" :=
  C10_negative.1 (-1) (by norm_num)

/-- Padding insets of the SVG candlestick chart (`StockChart.tsx` line 260). -/
structure Padding where
  top : ℚ
  right : ℚ
  bottom : ℚ
  left : ℚ

/-- Source constant `padding = { top: 20, right: 60, bottom: 30, left: 10 }`. -/
def padding : Padding := { top := 20, right := 60, bottom := 30, left := 10 }

/-- Source constant `width = 800`. -/
def width : ℚ := 800

/-- Source constant `height = 280`. -/
def height : ℚ := 280

/-- Source `chartWidth = width - padding.left - padding.right`. -/
def chartWidth : ℚ := width - padding.left - padding.right

/-- Source `chartHeight = height - padding.top - padding.bottom`. -/
def chartHeight : ℚ := height - padding.top - padding.bottom

/-- `Math.min(...l)` for the non-empty spreads the source produces; JS
returns `Infinity` on an empty spread, which `ℚ` cannot represent, so the
empty case carries the junk value `0` and every statement below applies
`listMin` only to non-empty lists. -/
def listMin : List ℚ → ℚ
  | [] => 0
  | x :: xs => xs.foldl min x

/-- `Math.max(...l)`; same remarks as `listMin` (JS gives `-Infinity` on an
empty spread). -/
def listMax : List ℚ → ℚ
  | [] => 0
  | x :: xs => xs.foldl max x

/-- Source line 275: `data.flatMap(d => [d.open, d.high, d.low, d.close]
.filter(p => p !== null))` — all observed OHLC values of the series. -/
def observedPrices (data : List StockPrice) : List ℚ :=
  data.flatMap (fun d =>
    [d.open_price, d.high_price, d.low_price, d.close_price].filterMap id)

/-- Source line 276: `minPrice = Math.min(...prices) * 0.99`. -/
def minPrice (data : List StockPrice) : ℚ := listMin (observedPrices data) * (99 / 100)

/-- Source line 277: `maxPrice = Math.max(...prices) * 1.01`. -/
def maxPrice (data : List StockPrice) : ℚ := listMax (observedPrices data) * (101 / 100)

/-- Source line 278: `priceRange = maxPrice - minPrice`. -/
def priceRange (data : List StockPrice) : ℚ := maxPrice data - minPrice data

/-- Source line 281: `xScale = index => padding.left + (index / (data.length - 1))
* chartWidth`.  For a single-point series the JS denominator is `0` and the
scale yields `NaN`; `ℚ`-division makes it total, so division-by-zero facts
are stated about the denominator `data.length - 1` itself. -/
def xScale (data : List StockPrice) (index : ℕ) : ℚ :=
  padding.left + ((index : ℚ) / ((data.length : ℚ) - 1)) * chartWidth

/-- Source line 282: `yScale = price => padding.top + ((maxPrice - price) /
priceRange) * chartHeight`.  When `priceRange = 0` the JS original yields
`NaN`/`Infinity`; division-by-zero facts are stated about `priceRange`. -/
def yScale (data : List StockPrice) (price : ℚ) : ℚ :=
  padding.top + ((maxPrice data - price) / priceRange data) * chartHeight

/-- `isUp` of `candlestickData` (line 185):
`(p.close_price || 0) >= (p.open_price || 0)`. -/
def isUp (p : StockPrice) : Bool :=
  decide (p.close_price.getD 0 ≥ p.open_price.getD 0)

/-- Geometry of one rendered candle (lines 341-368): wick endpoints, body
top, body height, and the up/down colour key. -/
structure Candle where
  x : ℚ
  wickTop : ℚ
  wickBottom : ℚ
  bodyTop : ℚ
  bodyHeight : ℚ
  up : Bool

/-- The candle the projector draws at index `i` for point `d`
(lines 338-368): `null` when any OHLC field is null (the guard on line 339,
in source order open, close, high, low), otherwise the wick spans
`yScale(high)` to `yScale(low)`, `bodyTop = Math.min(yScale(open),
yScale(close))` and `bodyHeight = Math.abs(yScale(close) - yScale(open)) || 1`.
Field reads after the guard are total (`getD 0` on a `some` is the value). -/
def renderCandle (data : List StockPrice) (i : ℕ) (d : StockPrice) : Option Candle :=
  if d.open_price = none ∨ d.close_price = none ∨ d.high_price = none ∨ d.low_price = none
  then none
  else some
    { x := xScale data i
      wickTop := yScale data (d.high_price.getD 0)
      wickBottom := yScale data (d.low_price.getD 0)
      bodyTop := min (yScale data (d.open_price.getD 0)) (yScale data (d.close_price.getD 0))
      bodyHeight := jsOr |yScale data (d.close_price.getD 0) -
        yScale data (d.open_price.getD 0)| 1
      up := isUp d }

/-- C4: on a series with a non-degenerate price range, the price-to-pixel
scale is `y(p) = paddingTop + (maxPrice - p) / (maxPrice - minPrice) *
(H - paddingTop - paddingBottom)` with `minPrice` and `maxPrice` the observed
extremes scaled by the fixed 1% margins `0.99` and `1.01`. -/
theorem C4_yScale (data : List StockPrice) (p : ℚ) (hrange : priceRange data ≠ 0) :
    yScale data p = padding.top +
      ((maxPrice data - p) / (maxPrice data - minPrice data)) *
        (height - padding.top - padding.bottom) ∧
    minPrice data = (99 / 100) * listMin (observedPrices data) ∧
    maxPrice data = (101 / 100) * listMax (observedPrices data) :=
  ⟨rfl, mul_comm _ _, mul_comm _ _⟩

/-- One-row series whose only observed price is the close `100`. -/
def singleClose100 : List StockPrice := [⟨"2024-01-01", none, none, none, some 100, none⟩]

unseal Rat.add Rat.mul Rat.inv Rat.sub in
/-- Witness for C4 at a series with observed prices `[100]`
(range `101 - 99 = 2 ≠ 0`), evaluated at price `100`. -/
theorem C4_witness :
    priceRange singleClose100 ≠ 0 ∧
    yScale singleClose100 100 = padding.top +
      ((maxPrice singleClose100 - 100) /
        (maxPrice singleClose100 - minPrice singleClose100)) *
        (height - padding.top - padding.bottom) :=
  ⟨by decide, (C4_yScale singleClose100 100 (by decide)).1⟩

/-- A one-row series: `xScale` divides by `data.length - 1 = 0`. -/
def singlePointSeries : List StockPrice :=
  [⟨"2024-01-01", some 100, some 100, some 100, some 100, none⟩]

/-- A series whose observed prices are all `0`: the 1% margins collapse and
`priceRange = 0`, so `yScale` divides by zero. -/
def allZeroSeries : List StockPrice :=
  [⟨"2024-01-01", some 0, some 0, some 0, some 0, some 0⟩,
   ⟨"2024-01-02", some 0, some 0, some 0, some 0, some 0⟩]

/-- A flat two-row series at the nonzero price `500`. -/
def flatSeries : List StockPrice :=
  [⟨"2024-01-01", some 500, some 500, some 500, some 500, none⟩,
   ⟨"2024-01-02", some 500, some 500, some 500, some 500, none⟩]

unseal Rat.add Rat.mul Rat.inv Rat.sub in
/-- C3 fails on the code: the scale denominators are nowhere clamped.  For
the non-empty single-point series the `xScale` denominator
`data.length - 1` is `0` (JS: `0/0 = NaN`), and for the non-empty all-zero
series `priceRange` is `0`, so `yScale` divides by zero (JS: `NaN`).  Only
the flat series at a nonzero price is accidentally safe, because the
`0.99`/`1.01` margins keep its range nonzero. -/
theorem C3_div_by_zero :
    singlePointSeries ≠ [] ∧
    (singlePointSeries.length : ℚ) - 1 = 0 ∧
    allZeroSeries ≠ [] ∧
    priceRange allZeroSeries = 0 ∧
    priceRange flatSeries ≠ 0 := by
  decide

/-- C9: a point with any OHLC field null produces no candle at all — no
wick, no body, no substituted values. -/
theorem C9_missing_ohlc (data : List StockPrice) (i : ℕ) (d : StockPrice)
    (h : d.open_price = none ∨ d.high_price = none ∨ d.low_price = none ∨
      d.close_price = none) :
    renderCandle data i d = none := by
  have hc : d.open_price = none ∨ d.close_price = none ∨ d.high_price = none ∨
      d.low_price = none := by tauto
  unfold renderCandle
  rw [if_pos hc]

/-- Witness for C9 at a point whose open is null. -/
theorem C9_witness :
    renderCandle [] 0 ⟨"2024-01-01", none, some 1, some 1, some 1, none⟩ = none :=
  C9_missing_ohlc [] 0 ⟨"2024-01-01", none, some 1, some 1, some 1, none⟩ (Or.inl rfl)

/-- C5 amended: with all four OHLC fields present the body starts at
`min(y(open), y(close))`, and its height is `|y(close) - y(open)|` whenever
that is nonzero and `1` when it is zero (the source computes
`Math.abs(...) || 1`, not `max(|...|, 1)`, so a nonzero sub-pixel difference
is kept as is); in particular `open = close` yields height exactly `1`. -/
theorem C5_amended (data : List StockPrice) (i : ℕ) (d : StockPrice)
    (o c hi lo : ℚ) (ho : d.open_price = some o) (hc : d.close_price = some c)
    (hh : d.high_price = some hi) (hl : d.low_price = some lo) :
    (renderCandle data i d).map Candle.bodyTop =
      some (min (yScale data o) (yScale data c)) ∧
    (renderCandle data i d).map Candle.bodyHeight =
      some (if |yScale data c - yScale data o| = 0 then 1
            else |yScale data c - yScale data o|) ∧
    (o = c → (renderCandle data i d).map Candle.bodyHeight = some 1) := by
  unfold renderCandle
  rw [if_neg (by simp [ho, hc, hh, hl])]
  refine ⟨by simp [ho, hc], by simp [ho, hc, jsOr], ?_⟩
  intro hoc
  subst hoc
  simp [ho, hc, jsOr]

/-- A candle point with `open = close = 100`. -/
def flatCandlePoint : StockPrice := ⟨"2024-01-01", some 100, some 200, some 50, some 100, none⟩

/-- Witness for C5 amended: the flat candle (`open = close = 100`) has body
height exactly `1`. -/
theorem C5_witness :
    (renderCandle [flatCandlePoint] 0 flatCandlePoint).map Candle.bodyHeight = some 1 :=
  (C5_amended [flatCandlePoint] 0 flatCandlePoint 100 100 200 50 rfl rfl rfl rfl).2.2 rfl

/-- A candle point with a sub-pixel body: `open = 100`, `close = 100.5`,
`high = 200`, `low = 50`. -/
def cexPoint : StockPrice := ⟨"2024-01-01", some 100, some 200, some 50, some (201 / 2), none⟩

unseal Rat.add Rat.mul Rat.inv Rat.sub in
/-- C5 counterexample: at `cexPoint` the projected body difference is
`46/61 ≈ 0.754` pixels, and the rendered height is `46/61`, while the claim's
formula `max(|y(close) - y(open)|, 1)` predicts `1`. -/
theorem C5_counterexample :
    (renderCandle [cexPoint] 0 cexPoint).map Candle.bodyHeight = some (46 / 61) ∧
    max |yScale [cexPoint] (201 / 2) - yScale [cexPoint] 100| 1 = 1 ∧
    (46 / 61 : ℚ) ≠ 1 := by
  decide

/-- One SVG path command of the moving-average overlay: `M` starts a new
subpath, `L` continues the current one, each at pixel coordinates
`(xScale i, yScale v)`. -/
inductive PathCmd where
  | M (x y : ℚ)
  | L (x y : ℚ)
deriving DecidableEq

/-- The overlay polyline of `maLines` (`StockChart.tsx` lines 289-311): the
series is walked by index; a null element contributes the empty string
(modelled `none`) and a non-null element `v` contributes
`` `${i === 0 || ma[i-1] === null ? 'M' : 'L'}${xScale(i)},${yScale(v)}` ``
(modelled as a `PathCmd`). -/
def maPath (data : List StockPrice) (ma : List (Option ℚ)) : List (Option PathCmd) :=
  ma.enum.map (fun q =>
    match q.2 with
    | none => none
    | some v =>
      some (if q.1 = 0 ∨ ma[q.1 - 1]? = some none
            then PathCmd.M (xScale data q.1) (yScale data v)
            else PathCmd.L (xScale data q.1) (yScale data v)))

/-- C8: the overlay path has one entry per series element; null elements emit
nothing, and the non-null element at `i` emits a move command exactly when
`i = 0` or the previous element is null, and a line command otherwise — so
null gaps break the polyline instead of being connected through zero. -/
theorem C8_maPath (data : List StockPrice) (ma : List (Option ℚ)) :
    (maPath data ma).length = ma.length ∧
    (∀ i : ℕ, ma[i]? = some none → (maPath data ma)[i]? = some none) ∧
    (∀ i : ℕ, ∀ v : ℚ, ma[i]? = some (some v) →
      (maPath data ma)[i]? = some (some
        (if i = 0 ∨ ma[i - 1]? = some none
         then PathCmd.M (xScale data i) (yScale data v)
         else PathCmd.L (xScale data i) (yScale data v)))) := by
  have hget : ∀ i : ℕ, (maPath data ma)[i]? = ma[i]?.map (fun w =>
      match w with
      | none => none
      | some v =>
        some (if i = 0 ∨ ma[i - 1]? = some none
              then PathCmd.M (xScale data i) (yScale data v)
              else PathCmd.L (xScale data i) (yScale data v))) := by
    intro i
    simp only [maPath, List.getElem?_map, List.getElem?_enum]
    cases ma[i]? <;> rfl
  refine ⟨by simp [maPath], ?_, ?_⟩
  · intro i hi
    rw [hget, hi]
    rfl
  · intro i v hi
    rw [hget, hi]
    rfl

/-- Witness for C8 on the series `[null, 5, 6]` at index 1: the previous
element is null, so the command is a move starting a new subpath. -/
theorem C8_witness :
    (maPath [] [none, some 5, some 6])[1]? =
      some (some (if 1 = 0 ∨ ([none, some 5, some 6] : List (Option ℚ))[0]? = some none
        then PathCmd.M (xScale [] 1) (yScale [] 5)
        else PathCmd.L (xScale [] 1) (yScale [] 5))) :=
  (C8_maPath [] [none, some 5, some 6]).2.2 1 5 rfl

/-- JavaScript truthiness of a nullable number (`p.volume` used as a
condition): `null` and `0` are falsy, any other `ℚ` value is truthy
(JS additionally makes `NaN` falsy, which `ℚ` has no counterpart of). -/
def jsTruthy (v : Option ℚ) : Bool :=
  match v with
  | none => false
  | some x => decide (x ≠ 0)

/-- The volume-panel gate on `StockChart.tsx` line 239:
`showVolume && stockPrices.some(p => p.volume)`. -/
def volumeChartShown (showVolume : Bool) (stockPrices : List StockPrice) : Bool :=
  showVolume && stockPrices.any (fun p => jsTruthy p.volume)

lemma jsTruthy_iff (v : Option ℚ) :
    jsTruthy v = true ↔ ∃ x : ℚ, v = some x ∧ x ≠ 0 := by
  cases v with
  | none => simp [jsTruthy]
  | some x => simp [jsTruthy]

/-- C7 counterexample: a point carrying the non-null volume `0` does not
render the histogram — the gate tests JS truthiness of `p.volume`, and `0`
is falsy — refuting "whenever at least one point carries a non-null volume
value, the histogram is rendered". -/
theorem C7_counterexample :
    (⟨"2024-01-01", some 100, some 100, some 100, some 100,
       some 0⟩ : StockPrice).volume ≠ none ∧
    volumeChartShown true
      [⟨"2024-01-01", some 100, some 100, some 100, some 100, some 0⟩] = false := by
  decide

/-- C7 amended: with the volume panel enabled, the histogram is rendered if
and only if some point has a truthy volume, i.e. a volume that is both
non-null and nonzero (the gate `stockPrices.some(p => p.volume)` uses JS
truthiness, so a non-null volume of `0` counts as absent). -/
theorem C7_amended (stockPrices : List StockPrice) :
    volumeChartShown true stockPrices = true ↔
      ∃ p ∈ stockPrices, ∃ v : ℚ, p.volume = some v ∧ v ≠ 0 := by
  simp only [volumeChartShown, Bool.true_and, List.any_eq_true, jsTruthy_iff]

end KabuBunseki
